import Mathlib

/-!
Verification of the content-management HTTP service in src/server.js.

The ambient JavaScript runtime is shallowly embedded:
  - a `ContentRecord` (the JSON objects written to content-data.json) is the
    structure `Item`;
  - the persisted JSON document is modelled by the inductive `Json` together
    with an encoder mirroring JSON.stringify on the records the program
    writes, and a decoder mirroring the field accesses the handlers perform;
  - the state of the data file is `FileContent` (missing, unreadable,
    syntactically invalid, or a parsed JSON document);
  - fs.readFileSync / JSON.parse / fs.writeFileSync are fallible and
    modelled with `Except`; the try/catch wrappers readContentFromFile and
    writeContentToFile are total functions on top of them;
  - each HTTP handler becomes a pure function from its request data and the
    current file state to a result and the new file state; the POST handler
    additionally reports the list of store operations it performed;
  - the Express application stack is the ordered list `appLayers`; an error
    raised inside a layer is dispatched to the first error-handling layer
    registered strictly after it, which is the documented Express rule.
-/

/-- A content record as persisted in content-data.json (src/server.js lines
190-198 and 21-29).  imageUrl is `none` when the stored field is JSON null. -/
structure Item where
  id : String
  title : String
  description : String
  imageUrl : Option String
  createdAt : String
  updatedAt : String
deriving DecidableEq

/-- JSON values, as far as the data file ever holds them. -/
inductive Json where
  | null : Json
  | str : String → Json
  | arr : List Json → Json
  | obj : List (String × Json) → Json

/-- JSON.stringify of one record: fields appear in the insertion order used
at src/server.js lines 190-198. -/
def encodeItem (it : Item) : Json :=
  Json.obj
    [ ("id", Json.str it.id)
    , ("title", Json.str it.title)
    , ("description", Json.str it.description)
    , ("imageUrl", match it.imageUrl with | some u => Json.str u | none => Json.null)
    , ("createdAt", Json.str it.createdAt)
    , ("updatedAt", Json.str it.updatedAt) ]

/-- JSON.stringify of the whole collection: a JSON array of records. -/
def encodeItems (l : List Item) : Json :=
  Json.arr (l.map encodeItem)

/-- Property lookup on a JSON object (first binding wins, as in JS objects). -/
def getField : List (String × Json) → String → Option Json
  | [], _ => none
  | (k, v) :: rest, key => if k = key then some v else getField rest key

/-- Reads a JSON value as a string. -/
def asString : Json → Option String
  | Json.str s => some s
  | _ => none

/-- Reads a JSON value as a nullable string (the shape of imageUrl). -/
def asOptString : Json → Option (Option String)
  | Json.str s => some (some s)
  | Json.null => some none
  | _ => none

/-- Decodes one record object: the six fields the handlers access. -/
def decodeItem : Json → Option Item
  | Json.obj fields =>
    match getField fields "id", getField fields "title",
          getField fields "description", getField fields "imageUrl",
          getField fields "createdAt", getField fields "updatedAt" with
    | some ji, some jt, some jd, some ju, some jc, some jm =>
      match asString ji, asString jt, asString jd,
            asOptString ju, asString jc, asString jm with
      | some i, some t, some d, some u, some c, some m =>
        some ⟨i, t, d, u, c, m⟩
      | _, _, _, _, _, _ => none
    | _, _, _, _, _, _ => none
  | _ => none

/-- Decodes a list of record objects, failing if any element fails. -/
def decodeItemList : List Json → Option (List Item)
  | [] => some []
  | j :: rest =>
    match decodeItem j, decodeItemList rest with
    | some it, some its => some (it :: its)
    | _, _ => none

/-- Decodes the whole data file document: a JSON array of records. -/
def decodeItems : Json → Option (List Item)
  | Json.arr xs => decodeItemList xs
  | _ => none

/-- State of the data file content-data.json. -/
inductive FileContent where
  | absent : FileContent
  | unreadable : FileContent
  | invalidJson : FileContent
  | parsed : Json → FileContent

/-- fs.readFileSync followed by JSON.parse (src/server.js lines 39-40): both
throw on a missing or unreadable file or on invalid JSON text. -/
def fsReadParse : FileContent → Except String Json
  | FileContent.absent => Except.error "ENOENT: no such file or directory"
  | FileContent.unreadable => Except.error "EACCES: permission denied"
  | FileContent.invalidJson => Except.error "Unexpected token in JSON"
  | FileContent.parsed j => Except.ok j

/-- readContentFromFile (src/server.js lines 37-45): returns the decoded
collection, and the empty array on any read or parse failure.  The source
returns the parsed value unvalidated; in this typed model a parsed document
that is not an array of record objects is likewise outside the shape every
handler assumes and yields the empty collection. -/
def readContentFromFile (file : FileContent) : List Item :=
  match fsReadParse file with
  | Except.ok j => (decodeItems j).getD []
  | Except.error _ => []

/-- fs.writeFileSync of JSON.stringify(content) (src/server.js line 50):
throws when the disk write fails, otherwise replaces the file content.
`diskOk` models whether the underlying write succeeds. -/
def fsWriteFileSync (diskOk : Bool) (content : List Item) (_file : FileContent) :
    Except String FileContent :=
  if diskOk then Except.ok (FileContent.parsed (encodeItems content))
  else Except.error "ENOSPC: no space left on device"

/-- writeContentToFile (src/server.js lines 48-56): true on success, false on
failure, never propagating the exception; the file is unchanged on failure. -/
def writeContentToFile (diskOk : Bool) (content : List Item) (file : FileContent) :
    Bool × FileContent :=
  match fsWriteFileSync diskOk content file with
  | Except.ok f => (true, f)
  | Except.error _ => (false, file)

theorem decodeItem_encodeItem (it : Item) : decodeItem (encodeItem it) = some it := by
  cases it with
  | mk i t d u c m => cases u <;> rfl

theorem decodeItemList_map_encodeItem (l : List Item) :
    decodeItemList (l.map encodeItem) = some l := by
  induction l with
  | nil => rfl
  | cons a rest ih => simp [decodeItemList, decodeItem_encodeItem, ih]

theorem decodeItems_encodeItems (l : List Item) :
    decodeItems (encodeItems l) = some l := by
  simp [decodeItems, encodeItems, decodeItemList_map_encodeItem]

theorem read_write_roundtrip (l : List Item) :
    readContentFromFile (FileContent.parsed (encodeItems l)) = l := by
  simp [readContentFromFile, fsReadParse, decodeItems_encodeItems]

theorem writeContentToFile_ok (content : List Item) (file : FileContent) :
    writeContentToFile true content file =
      (true, FileContent.parsed (encodeItems content)) := rfl

/-- The request host context: req.protocol and req.get("host"). -/
structure HostCtx where
  protocol : String
  host : String
deriving DecidableEq

/-- HTTP response envelope: status code, the success flag, and the message
field when the body carries one. -/
structure Response where
  status : Nat
  success : Bool
  message : Option String
deriving DecidableEq

/-- Model of the JavaScript String.prototype.startsWith check used at
src/server.js lines 79, 141 and 403, executable by structural recursion. -/
def jsStartsWithList : List Char → List Char → Bool
  | [], _ => true
  | _ :: _, [] => false
  | p :: ps, c :: cs => p == c && jsStartsWithList ps cs

/-- s.startsWith(pre) in JavaScript. -/
def jsStartsWith (s pre : String) : Bool :=
  jsStartsWithList pre.data s.data

/-- Drops leading whitespace characters. -/
def dropLeadingWs : List Char → List Char
  | [] => []
  | c :: cs => if c.isWhitespace then dropLeadingWs cs else c :: cs

/-- Model of JavaScript String.prototype.trim (src/server.js lines 192-193):
strips leading and trailing whitespace. -/
def jsTrim (s : String) : String :=
  ⟨(dropLeadingWs (dropLeadingWs s.data).reverse).reverse⟩

/-- The URL fix-up of GET /api/content (src/server.js lines 140-149):
`item.imageUrl && !item.imageUrl.startsWith("http")` rewrites the path to an
absolute URL.  JavaScript truthiness makes both null and the empty string
falsy, so those are returned unchanged. -/
def fixItemUrl (ctx : HostCtx) (item : Item) : Item :=
  match item.imageUrl with
  | some u =>
    if u != "" && !(jsStartsWith u "http") then
      { item with imageUrl := some (ctx.protocol ++ "://" ++ ctx.host ++ u) }
    else item
  | none => item

/-- GET /api/content (src/server.js lines 135-162): the stored collection,
in stored order, each record passed through the URL fix-up. -/
def getAllData (ctx : HostCtx) (file : FileContent) : List Item :=
  (readContentFromFile file).map (fixItemUrl ctx)

/-- The imageUrl value computed by the ternary of GET /api/content/:id
(src/server.js lines 403-405). -/
def getByIdFixedUrl (ctx : HostCtx) (item : Item) : Option String :=
  match item.imageUrl with
  | some u =>
    if u != "" && !(jsStartsWith u "http") then
      some (ctx.protocol ++ "://" ++ ctx.host ++ u)
    else some u
  | none => none

/-- The spread `{...item, imageUrl: ...}` of GET /api/content/:id
(src/server.js lines 401-406). -/
def getByIdFix (ctx : HostCtx) (item : Item) : Item :=
  { item with imageUrl := getByIdFixedUrl ctx item }

/-- Outcome of GET /api/content/:id. -/
inductive GetByIdResult where
  | notFound : GetByIdResult
  | found : Item → GetByIdResult
deriving DecidableEq

/-- GET /api/content/:id (src/server.js lines 387-418): find the first record
whose id matches, 404 when none does; the handler performs no write, so the
file state is returned unchanged. -/
def getContentById (ctx : HostCtx) (id : String) (file : FileContent) :
    GetByIdResult × FileContent :=
  match (readContentFromFile file).find? (fun item => item.id == id) with
  | none => (GetByIdResult.notFound, file)
  | some item => (GetByIdResult.found (getByIdFix ctx item), file)

/-- Response envelope produced by GET /api/content/:id. -/
def getByIdResponse : GetByIdResult → Response
  | GetByIdResult.notFound => ⟨404, false, some "Content not found"⟩
  | GetByIdResult.found _ => ⟨200, true, none⟩

/-- Outcome of DELETE /api/content/:id. -/
inductive DeleteResult where
  | badRequest : DeleteResult
  | notFound : DeleteResult
  | storageFailure : DeleteResult
  | deleted : String → DeleteResult
deriving DecidableEq

/-- DELETE /api/content/:id (src/server.js lines 279-324): filter out the
records whose id matches; if the length is unchanged respond 404 without
writing, otherwise persist the filtered collection and report the removed
id.  `!id` is falsy exactly for the empty route parameter. -/
def deleteContentById (diskOk : Bool) (id : String) (file : FileContent) :
    DeleteResult × FileContent :=
  if id = "" then (DeleteResult.badRequest, file)
  else if ((readContentFromFile file).filter (fun item => item.id != id)).length
      = (readContentFromFile file).length then
    (DeleteResult.notFound, file)
  else if (writeContentToFile diskOk
      ((readContentFromFile file).filter (fun item => item.id != id)) file).1 then
    (DeleteResult.deleted id,
     (writeContentToFile diskOk
       ((readContentFromFile file).filter (fun item => item.id != id)) file).2)
  else
    (DeleteResult.storageFailure,
     (writeContentToFile diskOk
       ((readContentFromFile file).filter (fun item => item.id != id)) file).2)

/-- Response envelope produced by DELETE /api/content/:id. -/
def deleteResponse : DeleteResult → Response
  | DeleteResult.badRequest => ⟨400, false, some "Content ID is required"⟩
  | DeleteResult.notFound => ⟨404, false, some "Content not found"⟩
  | DeleteResult.storageFailure =>
      ⟨500, false, some "Failed to update storage after deletion"⟩
  | DeleteResult.deleted _ => ⟨200, true, some "Content deleted permanently!"⟩

/-- The multer fileSize limit (src/server.js line 85). -/
def FILE_SIZE_LIMIT : Nat := 5 * 1024 * 1024

/-- The file part of an incoming multipart request, as multer sees it. -/
structure RawUpload where
  originalname : String
  mimetype : String
  size : Nat
deriving DecidableEq

/-- req.file after multer accepted an upload: the stored filename is the
generated uuid, a dash, and the original name (src/server.js line 71). -/
structure UploadedFile where
  originalname : String
  mimetype : String
  size : Nat
  filename : String
deriving DecidableEq

/-- Outcome of the upload.single("image") middleware. -/
inductive MulterOutcome where
  | noFile : MulterOutcome
  | accepted : UploadedFile → MulterOutcome
  | fileFilterError : MulterOutcome
  | limitFileSize : MulterOutcome
deriving DecidableEq

/-- The multer stage (src/server.js lines 66-86): the fileFilter rejects any
mimetype that does not start with image/, and the fileSize limit raises
LIMIT_FILE_SIZE when the payload exceeds 5 MB.  `fileUuid` is the uuidv4()
drawn for the stored filename. -/
def runMulter (fileUuid : String) (upload? : Option RawUpload) : MulterOutcome :=
  match upload? with
  | none => MulterOutcome.noFile
  | some u =>
    if jsStartsWith u.mimetype "image/" then
      if FILE_SIZE_LIMIT < u.size then MulterOutcome.limitFileSize
      else MulterOutcome.accepted ⟨u.originalname, u.mimetype, u.size, fileUuid ++ "-" ++ u.originalname⟩
    else MulterOutcome.fileFilterError

/-- The layers of the Express application, in registration order
(src/server.js lines 11-13, 89, 108, 123, 135, 165, 235, 279, 327, 363,
387, 421, 434). -/
inductive Layer where
  | corsMw : Layer
  | jsonMw : Layer
  | staticUploads : Layer
  | multerErrorMw : Layer
  | rootRoute : Layer
  | healthRoute : Layer
  | getAllRoute : Layer
  | postContentRoute : Layer
  | fixUrlsRoute : Layer
  | deleteRoute : Layer
  | resetRoute : Layer
  | storageInfoRoute : Layer
  | getByIdRoute : Layer
  | notFoundMw : Layer
  | globalErrorMw : Layer
deriving DecidableEq

/-- The application stack in registration order: the multer error middleware
is registered at line 89, before the POST /api/content route at line 165,
and the global error handler at line 434 comes last. -/
def appLayers : List Layer :=
  [ Layer.corsMw, Layer.jsonMw, Layer.staticUploads
  , Layer.multerErrorMw
  , Layer.rootRoute, Layer.healthRoute, Layer.getAllRoute
  , Layer.postContentRoute
  , Layer.fixUrlsRoute, Layer.deleteRoute, Layer.resetRoute
  , Layer.storageInfoRoute, Layer.getByIdRoute, Layer.notFoundMw
  , Layer.globalErrorMw ]

/-- Which layers are error-handling middleware (four-argument handlers). -/
def isErrorHandler : Layer → Bool
  | Layer.multerErrorMw => true
  | Layer.globalErrorMw => true
  | _ => false

/-- The layers registered strictly after a given layer. -/
def layersAfter : List Layer → Layer → List Layer
  | [], _ => []
  | l :: rest, target => if l = target then rest else layersAfter rest target

/-- Express error dispatch: next(err) from inside a layer runs the first
error-handling layer registered strictly after that layer (error middleware
registered earlier in the stack is never consulted). -/
def errorHandlerFor (l : Layer) : Option Layer :=
  (layersAfter appLayers l).find? isErrorHandler

/-- Errors the upload stage of POST /api/content can raise. -/
inductive UploadError where
  | fileFilter : UploadError
  | limitFileSize : UploadError
deriving DecidableEq

/-- What the multer error middleware (src/server.js lines 89-105) responds
when it receives the error: 400 in both cases. -/
def multerErrorMwResponse : UploadError → Response
  | UploadError.limitFileSize =>
      ⟨400, false, some "File size too large. Maximum 5MB allowed."⟩
  | UploadError.fileFilter =>
      ⟨400, false, some "Only image files are allowed!"⟩

/-- What the global error handler (src/server.js lines 434-441) responds. -/
def globalErrorMwResponse : Response := ⟨500, false, some "Internal server error"⟩

/-- The response actually sent when the upload stage of POST /api/content
errors: the error is dispatched from the route layer to whichever error
handler follows it in the stack. -/
def uploadErrorResponse (e : UploadError) : Response :=
  match errorHandlerFor Layer.postContentRoute with
  | some Layer.multerErrorMw => multerErrorMwResponse e
  | _ => globalErrorMwResponse

/-- Outcome of the POST /api/content handler body (src/server.js 165-232). -/
inductive CreateResult where
  | validationError : String → CreateResult
  | storageFailure : CreateResult
  | created : Item → CreateResult
deriving DecidableEq

/-- Outcome of the whole POST /api/content endpoint, upload stage included. -/
inductive CreateOutcome where
  | uploadError : UploadError → CreateOutcome
  | handled : CreateResult → CreateOutcome
deriving DecidableEq

/-- Operations performed against the data file. -/
inductive StoreOp where
  | read : StoreOp
  | write : StoreOp
deriving DecidableEq

/-- Result of a POST /api/content request: the outcome, the state of the
data file afterwards, and the store operations performed (in order). -/
structure CreateResultState where
  outcome : CreateOutcome
  file : FileContent
  ops : List StoreOp

/-- The POST /api/content handler body (src/server.js lines 165-232): the
title/description check (JavaScript falsiness: missing or empty string)
and the req.file check both return 400 before the data file is touched;
otherwise the handler reads the collection, prepends the new record with
trimmed fields and a storage-relative imageUrl, writes it back, and
answers with the record's imageUrl made absolute from the request host. -/
def postContent (ctx : HostCtx) (diskOk : Bool) (newId : String) (now : String)
    (title? description? : Option String) (file? : Option UploadedFile)
    (file : FileContent) : CreateResultState :=
  match title?, description? with
  | some title, some description =>
    if title == "" || description == "" then
      ⟨CreateOutcome.handled (CreateResult.validationError "Title and description are required"), file, []⟩
    else
      match file? with
      | none =>
        ⟨CreateOutcome.handled (CreateResult.validationError "Image is required"), file, []⟩
      | some f =>
        let currentContent := readContentFromFile file
        let newItem : Item :=
          ⟨newId, jsTrim title, jsTrim description, some ("/uploads/" ++ f.filename), now, now⟩
        let updatedContent := newItem :: currentContent
        let wr := writeContentToFile diskOk updatedContent file
        if wr.1 then
          ⟨CreateOutcome.handled (CreateResult.created
             { newItem with imageUrl := some (ctx.protocol ++ "://" ++ ctx.host ++ "/uploads/" ++ f.filename) }),
           wr.2, [StoreOp.read, StoreOp.write]⟩
        else
          ⟨CreateOutcome.handled CreateResult.storageFailure, wr.2, [StoreOp.read, StoreOp.write]⟩
  | _, _ =>
    ⟨CreateOutcome.handled (CreateResult.validationError "Title and description are required"), file, []⟩

/-- The whole POST /api/content endpoint: multer first, then the handler.
When multer raises, the handler never runs and the data file is untouched. -/
def createEndpoint (ctx : HostCtx) (diskOk : Bool) (fileUuid newId now : String)
    (title? description? : Option String) (upload? : Option RawUpload)
    (file : FileContent) : CreateResultState :=
  match runMulter fileUuid upload? with
  | MulterOutcome.fileFilterError => ⟨CreateOutcome.uploadError UploadError.fileFilter, file, []⟩
  | MulterOutcome.limitFileSize => ⟨CreateOutcome.uploadError UploadError.limitFileSize, file, []⟩
  | MulterOutcome.noFile => postContent ctx diskOk newId now title? description? none file
  | MulterOutcome.accepted f => postContent ctx diskOk newId now title? description? (some f) file

/-- Response envelope for the handler outcomes of POST /api/content. -/
def createResultResponse : CreateResult → Response
  | CreateResult.validationError msg => ⟨400, false, some msg⟩
  | CreateResult.storageFailure => ⟨500, false, some "Failed to save content to storage"⟩
  | CreateResult.created _ => ⟨200, true, some "Content added successfully!"⟩

/-- Response envelope for the whole POST /api/content endpoint. -/
def createOutcomeResponse : CreateOutcome → Response
  | CreateOutcome.uploadError e => uploadErrorResponse e
  | CreateOutcome.handled r => createResultResponse r

theorem getByIdFix_eq_fixItemUrl (ctx : HostCtx) (it : Item) :
    getByIdFix ctx it = fixItemUrl ctx it := by
  cases it with
  | mk i t d u c m =>
    cases u with
    | none => rfl
    | some v =>
      simp only [getByIdFix, getByIdFixedUrl, fixItemUrl]
      split <;> rfl

theorem getByIdFix_isSome (ctx : HostCtx) (it : Item) :
    (getByIdFix ctx it).imageUrl.isSome = it.imageUrl.isSome := by
  cases it with
  | mk i t d u c m =>
    cases u with
    | none => rfl
    | some v =>
      simp only [getByIdFix, getByIdFixedUrl]
      split <;> rfl

theorem createEndpoint_valid (ctx : HostCtx) (fileUuid newId now t d origName mt : String)
    (sz : Nat) (file : FileContent)
    (ht : t ≠ "") (hd : d ≠ "") (hmt : jsStartsWith mt "image/" = true)
    (hsz : sz ≤ FILE_SIZE_LIMIT) :
    createEndpoint ctx true fileUuid newId now (some t) (some d)
        (some ⟨origName, mt, sz⟩) file =
      ⟨CreateOutcome.handled (CreateResult.created
          ⟨newId, jsTrim t, jsTrim d,
           some (ctx.protocol ++ "://" ++ ctx.host ++ "/uploads/" ++ (fileUuid ++ "-" ++ origName)),
           now, now⟩),
       FileContent.parsed (encodeItems
         (⟨newId, jsTrim t, jsTrim d, some ("/uploads/" ++ (fileUuid ++ "-" ++ origName)), now, now⟩
           :: readContentFromFile file)),
       [StoreOp.read, StoreOp.write]⟩ := by
  have hsz2 : ¬ (FILE_SIZE_LIMIT < sz) := Nat.not_lt.mpr hsz
  have ht2 : (t == "") = false := beq_eq_false_iff_ne.mpr ht
  have hd2 : (d == "") = false := beq_eq_false_iff_ne.mpr hd
  unfold createEndpoint runMulter postContent
  simp [hmt, hsz2, ht2, hd2, writeContentToFile, fsWriteFileSync]

theorem createEndpoint_valid_file (ctx : HostCtx) (fileUuid newId now t d origName mt : String)
    (sz : Nat) (file : FileContent)
    (ht : t ≠ "") (hd : d ≠ "") (hmt : jsStartsWith mt "image/" = true)
    (hsz : sz ≤ FILE_SIZE_LIMIT) :
    (createEndpoint ctx true fileUuid newId now (some t) (some d)
        (some ⟨origName, mt, sz⟩) file).file =
      FileContent.parsed (encodeItems
        (⟨newId, jsTrim t, jsTrim d, some ("/uploads/" ++ (fileUuid ++ "-" ++ origName)), now, now⟩
          :: readContentFromFile file)) := by
  rw [createEndpoint_valid ctx fileUuid newId now t d origName mt sz file ht hd hmt hsz]

theorem filter_ne_id_eq_self (l : List Item) (id : String)
    (h : ∀ x ∈ l, x.id ≠ id) :
    l.filter (fun x => x.id != id) = l := by
  apply List.filter_eq_self.mpr
  intro a ha
  exact bne_iff_ne.mpr (h a ha)

theorem filter_delete_length (l : List Item) (it : Item) (id : String)
    (hnd : (l.map Item.id).Nodup) (hmem : it ∈ l) (hid : it.id = id) :
    (l.filter (fun x => x.id != id)).length + 1 = l.length := by
  induction l with
  | nil => cases hmem
  | cons a rest ih =>
    rw [List.map_cons, List.nodup_cons] at hnd
    rcases List.mem_cons.mp hmem with h | h
    · subst h
      have hrest : ∀ x ∈ rest, x.id ≠ id := by
        intro x hx he
        exact hnd.1 (hid ▸ he ▸ List.mem_map.mpr ⟨x, hx, rfl⟩)
      have hdrop : (it.id != id) = false := by simp [hid]
      rw [List.filter_cons, if_neg (by simp [hdrop])]
      rw [filter_ne_id_eq_self rest id hrest]
      simp
    · have hane : a.id ≠ id := by
        intro he
        exact hnd.1 (he ▸ hid ▸ List.mem_map.mpr ⟨it, h, rfl⟩)
      have hkeep : (a.id != id) = true := bne_iff_ne.mpr hane
      rw [List.filter_cons, if_pos hkeep]
      have ihr := ih hnd.2 h
      simp only [List.length_cons]
      omega

theorem find?_eq_some_of_nodup (l : List Item) (it : Item) (id : String)
    (hnd : (l.map Item.id).Nodup) (hmem : it ∈ l) (hid : it.id = id) :
    l.find? (fun x => x.id == id) = some it := by
  induction l with
  | nil => cases hmem
  | cons a rest ih =>
    rw [List.map_cons, List.nodup_cons] at hnd
    rcases List.mem_cons.mp hmem with h | h
    · subst h
      exact List.find?_cons_of_pos rest (beq_iff_eq.mpr hid)
    · have hane : a.id ≠ id := by
        intro he
        exact hnd.1 (he ▸ hid ▸ List.mem_map.mpr ⟨it, h, rfl⟩)
      rw [List.find?_cons_of_neg rest (by simp [hane])]
      exact ih hnd.2 h

/-- The seeded sample record written when the data file is first created
(src/server.js lines 21-29), with a fixed timestamp. -/
def seedItem : Item :=
  ⟨"1", "Welcome to the Content Management System",
   "This is a sample content item that will persist even after server restart.",
   none, "2024-01-01T00:00:00.000Z", "2024-01-01T00:00:00.000Z"⟩

/-- A data file holding just the seeded record. -/
def file0 : FileContent := FileContent.parsed (encodeItems [seedItem])

/-- A concrete request host context. -/
def ctx0 : HostCtx := ⟨"http", "localhost:2148"⟩

/-- A record holding a file-reference image path, as Create stores them. -/
def relItem : Item := ⟨"3", "Third", "Has a picture", some "/uploads/w.png", "t3", "t3"⟩

/-- A record whose imageUrl is the empty string: non-null, not absolute. -/
def blankUrlItem : Item := ⟨"9", "Blank", "Empty image url", some "", "t9", "t9"⟩

/-- Claim C8: the Record Store boundary never raises: every read or decode
failure makes readContentFromFile return the empty collection, a corrupt
store is indistinguishable from an empty one, and writeContentToFile
reports false exactly when the underlying write fails, leaving the file
unchanged in that case. -/
theorem store_boundary_never_raises :
    (∀ file msg, fsReadParse file = Except.error msg → readContentFromFile file = [])
    ∧ readContentFromFile FileContent.invalidJson
        = readContentFromFile (FileContent.parsed (encodeItems []))
    ∧ (∀ diskOk content file,
        (writeContentToFile diskOk content file).1 = true
          ↔ ∃ f2, fsWriteFileSync diskOk content file = Except.ok f2)
    ∧ (∀ diskOk content file,
        (writeContentToFile diskOk content file).1 = false →
          (writeContentToFile diskOk content file).2 = file) := by
  refine ⟨?_, rfl, ?_, ?_⟩
  · intro file msg h
    unfold readContentFromFile
    rw [h]
  · intro diskOk content file
    cases diskOk <;> simp [writeContentToFile, fsWriteFileSync]
  · intro diskOk content file
    cases diskOk <;> simp [writeContentToFile, fsWriteFileSync]

/-- Witness for C8 at concrete inputs: a corrupt store reads as empty, and a
failed write reports false and leaves the file as it was. -/
theorem store_boundary_never_raises_witness :
    readContentFromFile FileContent.absent = []
    ∧ (writeContentToFile false [] FileContent.invalidJson).2 = FileContent.invalidJson :=
  ⟨store_boundary_never_raises.1 FileContent.absent "ENOENT: no such file or directory" rfl,
   store_boundary_never_raises.2.2.2 false [] FileContent.invalidJson rfl⟩

/-- Claim C9: for every well-formed store file (one whose JSON document
decodes to a sequence of records), SaveAll(LoadAll()) succeeds and the
re-serialized document decodes to the same sequence, so the round trip is a
semantic no-op on the stored collection. -/
theorem saveAll_loadAll_noop (j : Json) (items : List Item)
    (h : decodeItems j = some items) :
    readContentFromFile (FileContent.parsed j) = items
    ∧ writeContentToFile true (readContentFromFile (FileContent.parsed j))
        (FileContent.parsed j)
        = (true, FileContent.parsed (encodeItems items))
    ∧ decodeItems (encodeItems items) = some items
    ∧ readContentFromFile
        ((writeContentToFile true (readContentFromFile (FileContent.parsed j))
            (FileContent.parsed j)).2)
        = readContentFromFile (FileContent.parsed j) := by
  have h0 : readContentFromFile (FileContent.parsed j) = (decodeItems j).getD [] := rfl
  have h1 : readContentFromFile (FileContent.parsed j) = items := by
    simp [h0, h]
  refine ⟨h1, ?_, decodeItems_encodeItems items, ?_⟩
  · rw [h1, writeContentToFile_ok]
  · simp [h1, writeContentToFile_ok, read_write_roundtrip]

/-- Witness for C9: the round trip on a concrete well-formed store. -/
theorem saveAll_loadAll_noop_witness :
    readContentFromFile (FileContent.parsed (encodeItems [seedItem, relItem])) = [seedItem, relItem]
    ∧ readContentFromFile
        ((writeContentToFile true
            (readContentFromFile (FileContent.parsed (encodeItems [seedItem, relItem])))
            (FileContent.parsed (encodeItems [seedItem, relItem]))).2)
        = readContentFromFile (FileContent.parsed (encodeItems [seedItem, relItem])) :=
  ⟨(saveAll_loadAll_noop (encodeItems [seedItem, relItem]) [seedItem, relItem] rfl).1,
   (saveAll_loadAll_noop (encodeItems [seedItem, relItem]) [seedItem, relItem] rfl).2.2.2⟩


/-- Counterexample to claim C5 as stated: a stored record whose imageUrl is
the empty string is non-null and does not start with "http", yet List
returns it unchanged instead of rewriting it, because the JavaScript
truthiness check at src/server.js line 141 treats the empty string like
null. -/
theorem list_blank_url_counterexample :
    blankUrlItem.imageUrl = some ""
    ∧ blankUrlItem.imageUrl ≠ none
    ∧ jsStartsWith "" "http" = false
    ∧ getAllData ⟨"http", "example.com"⟩
        (FileContent.parsed (encodeItems [blankUrlItem])) = [blankUrlItem]
    ∧ blankUrlItem.imageUrl ≠ some ("http" ++ "://" ++ "example.com" ++ "") :=
  ⟨rfl, by decide, rfl, rfl, by decide⟩

/-- Claim C5 (amended): List returns every stored record, in stored order,
each passed through the URL fix-up; a record whose imageUrl is non-null,
non-empty and does not start with "http" is rewritten to the absolute URL
built from the request scheme and host, and a record whose imageUrl is
null, empty, or already starts with "http" is returned unchanged in all
other fields. -/
theorem list_normalizes_urls (ctx : HostCtx) (file : FileContent) :
    getAllData ctx file = (readContentFromFile file).map (fixItemUrl ctx)
    ∧ (∀ i t d c m : String, fixItemUrl ctx ⟨i, t, d, none, c, m⟩ = ⟨i, t, d, none, c, m⟩)
    ∧ (∀ i t d c m : String, fixItemUrl ctx ⟨i, t, d, some "", c, m⟩ = ⟨i, t, d, some "", c, m⟩)
    ∧ (∀ i t d c m u : String, jsStartsWith u "http" = true →
        fixItemUrl ctx ⟨i, t, d, some u, c, m⟩ = ⟨i, t, d, some u, c, m⟩)
    ∧ (∀ i t d c m u : String, u ≠ "" → jsStartsWith u "http" = false →
        fixItemUrl ctx ⟨i, t, d, some u, c, m⟩ =
          ⟨i, t, d, some (ctx.protocol ++ "://" ++ ctx.host ++ u), c, m⟩) := by
  refine ⟨rfl, fun i t d c m => rfl, fun i t d c m => rfl, ?_, ?_⟩
  · intro i t d c m u hs
    simp [fixItemUrl, hs]
  · intro i t d c m u hu hs
    simp [fixItemUrl, hs, bne_iff_ne, hu]

/-- Witness for C5 (amended) at a concrete input: a relative /uploads path
is rewritten to an absolute URL from the request host. -/
theorem list_normalizes_urls_witness :
    (("/uploads/w.png" : String) ≠ "" ∧ jsStartsWith "/uploads/w.png" "http" = false)
    ∧ fixItemUrl ctx0 ⟨"3", "Third", "Has a picture", some "/uploads/w.png", "t3", "t3"⟩ =
        ⟨"3", "Third", "Has a picture",
         some (ctx0.protocol ++ "://" ++ ctx0.host ++ "/uploads/w.png"), "t3", "t3"⟩ :=
  ⟨⟨by decide, rfl⟩,
   (list_normalizes_urls ctx0 file0).2.2.2.2 "3" "Third" "Has a picture" "t3" "t3"
     "/uploads/w.png" (by decide) rfl⟩

/-- Claim C4: GetById answers NotFound (HTTP 404, success false) exactly
when no stored record has the requested id; when a record with the id is
stored (ids unique) it returns that record with the same URL normalization
List applies, and in every case the data file is left unchanged. -/
theorem getById_found_iff (ctx : HostCtx) (id : String) (file : FileContent) :
    ((getContentById ctx id file).1 = GetByIdResult.notFound ↔
       ∀ x ∈ readContentFromFile file, x.id ≠ id)
    ∧ (getContentById ctx id file).2 = file
    ∧ getByIdResponse GetByIdResult.notFound = ⟨404, false, some "Content not found"⟩
    ∧ (∀ it, it ∈ readContentFromFile file → it.id = id →
        ((readContentFromFile file).map Item.id).Nodup →
        (getContentById ctx id file).1 = GetByIdResult.found (getByIdFix ctx it))
    ∧ (∀ ctx2 it2, getByIdFix ctx2 it2 = fixItemUrl ctx2 it2) := by
  refine ⟨?_, ?_, rfl, ?_, getByIdFix_eq_fixItemUrl⟩
  · cases hf : (readContentFromFile file).find? (fun item => item.id == id) with
    | none =>
      have hres : (getContentById ctx id file).1 = GetByIdResult.notFound := by
        unfold getContentById
        rw [hf]
      constructor
      · intro _ x hx he
        exact (List.find?_eq_none.mp hf x hx) (beq_iff_eq.mpr he)
      · intro _
        exact hres
    | some a =>
      have hres : (getContentById ctx id file).1 = GetByIdResult.found (getByIdFix ctx a) := by
        unfold getContentById
        rw [hf]
      constructor
      · intro hcontra
        rw [hres] at hcontra
        exact GetByIdResult.noConfusion hcontra
      · intro hall
        have hpa := List.find?_some hf
        have hmem2 : a ∈ readContentFromFile file := List.mem_of_find?_eq_some hf
        exact absurd (beq_iff_eq.mp hpa) (hall a hmem2)
  · unfold getContentById
    cases hf : (readContentFromFile file).find? (fun item => item.id == id) <;> rfl
  · intro it hmem hid hnd
    unfold getContentById
    rw [find?_eq_some_of_nodup (readContentFromFile file) it id hnd hmem hid]

/-- Witness for C4: fetching the seeded record by its id from a concrete
store returns it, and the store is unchanged. -/
theorem getById_found_iff_witness :
    (getContentById ctx0 "1" file0).1 = GetByIdResult.found (getByIdFix ctx0 seedItem)
    ∧ (getContentById ctx0 "1" file0).2 = file0 :=
  ⟨(getById_found_iff ctx0 "1" file0).2.2.2.1 seedItem (by decide) rfl (by decide),
   (getById_found_iff ctx0 "1" file0).2.1⟩

theorem deleteContentById_found (id : String) (file : FileContent) (it : Item)
    (hid : id ≠ "")
    (hnd : ((readContentFromFile file).map Item.id).Nodup)
    (hmem : it ∈ readContentFromFile file) (hit : it.id = id) :
    deleteContentById true id file =
      (DeleteResult.deleted id,
       FileContent.parsed (encodeItems
         ((readContentFromFile file).filter (fun item => item.id != id)))) := by
  have hlen := filter_delete_length (readContentFromFile file) it id hnd hmem hit
  unfold deleteContentById
  rw [if_neg hid, if_neg (by omega), writeContentToFile_ok]
  rfl

theorem deleteContentById_none (id : String) (file : FileContent)
    (hid : id ≠ "")
    (h : ∀ x ∈ readContentFromFile file, x.id ≠ id) :
    deleteContentById true id file = (DeleteResult.notFound, file) := by
  unfold deleteContentById
  rw [if_neg hid, filter_ne_id_eq_self (readContentFromFile file) id h, if_pos rfl]

/-- Claim C3: with unique ids, deleting a stored id removes exactly the one
matching record, shrinks the collection by exactly one, keeps every other
record, persists the reduced collection and reports the removed id; deleting
the same id again answers NotFound (HTTP 404) and leaves the store
unchanged. -/
theorem deleteById_removes_exactly_one (id : String) (file : FileContent) (it : Item)
    (hid : id ≠ "")
    (hnd : ((readContentFromFile file).map Item.id).Nodup)
    (hmem : it ∈ readContentFromFile file) (hit : it.id = id) :
    (deleteContentById true id file).1 = DeleteResult.deleted id
    ∧ readContentFromFile (deleteContentById true id file).2
        = (readContentFromFile file).filter (fun item => item.id != id)
    ∧ (readContentFromFile (deleteContentById true id file).2).length + 1
        = (readContentFromFile file).length
    ∧ (∀ x ∈ readContentFromFile (deleteContentById true id file).2,
        x ∈ readContentFromFile file ∧ x.id ≠ id)
    ∧ (∀ x ∈ readContentFromFile file, x.id ≠ id →
        x ∈ readContentFromFile (deleteContentById true id file).2)
    ∧ deleteContentById true id (deleteContentById true id file).2
        = (DeleteResult.notFound, (deleteContentById true id file).2)
    ∧ deleteResponse DeleteResult.notFound = ⟨404, false, some "Content not found"⟩ := by
  have hdel := deleteContentById_found id file it hid hnd hmem hit
  have hread : readContentFromFile (deleteContentById true id file).2
      = (readContentFromFile file).filter (fun item => item.id != id) := by
    rw [hdel]
    exact read_write_roundtrip _
  have hnone : ∀ x ∈ (readContentFromFile file).filter (fun item => item.id != id),
      x.id ≠ id := by
    intro x hx
    exact bne_iff_ne.mp (List.mem_filter.mp hx).2
  refine ⟨by rw [hdel], hread, ?_, ?_, ?_, ?_, rfl⟩
  · rw [hread]
    exact filter_delete_length (readContentFromFile file) it id hnd hmem hit
  · intro x hx
    rw [hread] at hx
    exact ⟨(List.mem_filter.mp hx).1, bne_iff_ne.mp (List.mem_filter.mp hx).2⟩
  · intro x hx hne
    rw [hread]
    exact List.mem_filter.mpr ⟨hx, bne_iff_ne.mpr hne⟩
  · refine deleteContentById_none id (deleteContentById true id file).2 hid ?_
    rw [hread]
    exact hnone

/-- Witness for C3: on a concrete two-record store, deleting id 1 succeeds
and shrinks the collection from two records to one. -/
theorem deleteById_removes_exactly_one_witness :
    (deleteContentById true "1" (FileContent.parsed (encodeItems [relItem, seedItem]))).1
        = DeleteResult.deleted "1"
    ∧ (readContentFromFile
        (deleteContentById true "1" (FileContent.parsed (encodeItems [relItem, seedItem]))).2).length + 1
        = (readContentFromFile (FileContent.parsed (encodeItems [relItem, seedItem]))).length :=
  ⟨(deleteById_removes_exactly_one "1" (FileContent.parsed (encodeItems [relItem, seedItem]))
      seedItem (by decide) (by decide) (by decide) rfl).1,
   (deleteById_removes_exactly_one "1" (FileContent.parsed (encodeItems [relItem, seedItem]))
      seedItem (by decide) (by decide) (by decide) rfl).2.2.1⟩

/-- Claim C1 (divergence documented): when title or description is missing
or empty, or no image payload is supplied, and the payload (when present)
passes the upload stage, the handler answers 400 with success false and the
data file is neither read nor written; but when a missing field is combined
with a payload the upload stage rejects, the response is the global error
handler's 500, not the claimed 400, because the multer error middleware is
registered before the route. -/
theorem create_missing_fields_divergence :
    (createEndpoint ctx0 true "f1" "i1" "now" (some "") (some "desc")
        (some ⟨"a.png", "image/png", 4⟩) file0).outcome
      = CreateOutcome.handled (CreateResult.validationError "Title and description are required")
    ∧ (createEndpoint ctx0 true "f1" "i1" "now" (some "") (some "desc")
        (some ⟨"a.png", "image/png", 4⟩) file0).file = file0
    ∧ (createEndpoint ctx0 true "f1" "i1" "now" (some "") (some "desc")
        (some ⟨"a.png", "image/png", 4⟩) file0).ops = []
    ∧ createOutcomeResponse (createEndpoint ctx0 true "f1" "i1" "now" (some "") (some "desc")
        (some ⟨"a.png", "image/png", 4⟩) file0).outcome
      = ⟨400, false, some "Title and description are required"⟩
    ∧ (createEndpoint ctx0 true "f1" "i1" "now" (some "Valid") (some "desc") none file0).outcome
      = CreateOutcome.handled (CreateResult.validationError "Image is required")
    ∧ (createEndpoint ctx0 true "f1" "i1" "now" (some "Valid") (some "desc") none file0).file = file0
    ∧ (createEndpoint ctx0 true "f1" "i1" "now" (some "Valid") (some "desc") none file0).ops = []
    ∧ (createEndpoint ctx0 true "f1" "i1" "now" none (some "desc")
        (some ⟨"a.png", "image/png", 4⟩) file0).outcome
      = CreateOutcome.handled (CreateResult.validationError "Title and description are required")
    ∧ (createOutcomeResponse (createEndpoint ctx0 true "f1" "i1" "now" (some "") (some "desc")
        (some ⟨"a.txt", "text/plain", 4⟩) file0).outcome).status = 500
    ∧ (createEndpoint ctx0 true "f1" "i1" "now" (some "") (some "desc")
        (some ⟨"a.txt", "text/plain", 4⟩) file0).file = file0
    ∧ (createEndpoint ctx0 true "f1" "i1" "now" (some "") (some "desc")
        (some ⟨"a.txt", "text/plain", 4⟩) file0).ops = [] :=
  ⟨rfl, rfl, rfl, rfl, rfl, rfl, rfl, rfl, rfl, rfl, rfl⟩

/-- Claim C2 (divergence documented): a non-image MIME type or an oversize
payload makes the upload stage raise and the handler never runs, so no
record is added; but the response sent is the global error handler's 500,
not the 400 the multer error middleware would produce, because that
middleware (src/server.js line 89) precedes the route (line 165) in the
stack and Express dispatches an error only to handlers registered after
the raising layer. -/
theorem upload_errors_return_500 :
    errorHandlerFor Layer.postContentRoute = some Layer.globalErrorMw
    ∧ multerErrorMwResponse UploadError.fileFilter
      = ⟨400, false, some "Only image files are allowed!"⟩
    ∧ multerErrorMwResponse UploadError.limitFileSize
      = ⟨400, false, some "File size too large. Maximum 5MB allowed."⟩
    ∧ (createEndpoint ctx0 true "f2" "i2" "now" (some "A") (some "B")
        (some ⟨"a.txt", "text/plain", 4⟩) file0).outcome
      = CreateOutcome.uploadError UploadError.fileFilter
    ∧ (createEndpoint ctx0 true "f2" "i2" "now" (some "A") (some "B")
        (some ⟨"a.txt", "text/plain", 4⟩) file0).file = file0
    ∧ (createEndpoint ctx0 true "f2" "i2" "now" (some "A") (some "B")
        (some ⟨"big.png", "image/png", 5 * 1024 * 1024 + 1⟩) file0).outcome
      = CreateOutcome.uploadError UploadError.limitFileSize
    ∧ (createEndpoint ctx0 true "f2" "i2" "now" (some "A") (some "B")
        (some ⟨"big.png", "image/png", 5 * 1024 * 1024 + 1⟩) file0).file = file0
    ∧ createOutcomeResponse (CreateOutcome.uploadError UploadError.fileFilter)
      = globalErrorMwResponse
    ∧ createOutcomeResponse (CreateOutcome.uploadError UploadError.limitFileSize)
      = globalErrorMwResponse
    ∧ globalErrorMwResponse = ⟨500, false, some "Internal server error"⟩ :=
  ⟨rfl, rfl, rfl, rfl, rfl, rfl, rfl, rfl, rfl, rfl⟩

/-- Claim C6: a valid Create stores a record whose title and description are
the trimmed inputs, under the freshly drawn id and a storage-relative
/uploads path, answers with that record absolutized against the caller's
host, and a subsequent GetById on the new id returns a record with the same
title and description and a non-null image reference. -/
theorem create_then_get (ctx ctx2 : HostCtx)
    (fileUuid newId now t d origName mt : String) (sz : Nat) (file : FileContent)
    (ht : t ≠ "") (hd : d ≠ "") (hmt : jsStartsWith mt "image/" = true)
    (hsz : sz ≤ FILE_SIZE_LIMIT)
    (hfresh : ∀ x ∈ readContentFromFile file, x.id ≠ newId) :
    (createEndpoint ctx true fileUuid newId now (some t) (some d)
        (some ⟨origName, mt, sz⟩) file).outcome
      = CreateOutcome.handled (CreateResult.created
          ⟨newId, jsTrim t, jsTrim d,
           some (ctx.protocol ++ "://" ++ ctx.host ++ "/uploads/" ++ (fileUuid ++ "-" ++ origName)),
           now, now⟩)
    ∧ readContentFromFile (createEndpoint ctx true fileUuid newId now (some t) (some d)
        (some ⟨origName, mt, sz⟩) file).file
      = ⟨newId, jsTrim t, jsTrim d, some ("/uploads/" ++ (fileUuid ++ "-" ++ origName)), now, now⟩
          :: readContentFromFile file
    ∧ (∀ x ∈ readContentFromFile file, x.id ≠ newId)
    ∧ getContentById ctx2 newId (createEndpoint ctx true fileUuid newId now (some t) (some d)
        (some ⟨origName, mt, sz⟩) file).file
      = (GetByIdResult.found (getByIdFix ctx2
           ⟨newId, jsTrim t, jsTrim d, some ("/uploads/" ++ (fileUuid ++ "-" ++ origName)), now, now⟩),
         (createEndpoint ctx true fileUuid newId now (some t) (some d)
            (some ⟨origName, mt, sz⟩) file).file)
    ∧ (getByIdFix ctx2 ⟨newId, jsTrim t, jsTrim d,
          some ("/uploads/" ++ (fileUuid ++ "-" ++ origName)), now, now⟩).title = jsTrim t
    ∧ (getByIdFix ctx2 ⟨newId, jsTrim t, jsTrim d,
          some ("/uploads/" ++ (fileUuid ++ "-" ++ origName)), now, now⟩).description = jsTrim d
    ∧ (getByIdFix ctx2 ⟨newId, jsTrim t, jsTrim d,
          some ("/uploads/" ++ (fileUuid ++ "-" ++ origName)), now, now⟩).imageUrl.isSome = true := by
  have hmain := createEndpoint_valid ctx fileUuid newId now t d origName mt sz file ht hd hmt hsz
  have hfile := createEndpoint_valid_file ctx fileUuid newId now t d origName mt sz file ht hd hmt hsz
  have hstore : readContentFromFile (createEndpoint ctx true fileUuid newId now (some t) (some d)
      (some ⟨origName, mt, sz⟩) file).file
      = ⟨newId, jsTrim t, jsTrim d, some ("/uploads/" ++ (fileUuid ++ "-" ++ origName)), now, now⟩
        :: readContentFromFile file := by
    rw [hfile]
    exact read_write_roundtrip _
  refine ⟨by rw [hmain], hstore, hfresh, ?_, rfl, rfl, ?_⟩
  · unfold getContentById
    rw [hstore, List.find?_cons_of_pos _ (by simp)]
  · rw [getByIdFix_isSome]
    rfl

/-- Witness for C6: a concrete valid create followed by GetById on the
returned id. -/
theorem create_then_get_witness :
    (createEndpoint ctx0 true "fu" "nid" "ts" (some "T") (some "D")
        (some ⟨"pic.png", "image/png", 4⟩) file0).outcome
      = CreateOutcome.handled (CreateResult.created
          ⟨"nid", jsTrim "T", jsTrim "D",
           some (ctx0.protocol ++ "://" ++ ctx0.host ++ "/uploads/" ++ ("fu" ++ "-" ++ "pic.png")),
           "ts", "ts"⟩)
    ∧ getContentById ctx0 "nid" (createEndpoint ctx0 true "fu" "nid" "ts" (some "T") (some "D")
        (some ⟨"pic.png", "image/png", 4⟩) file0).file
      = (GetByIdResult.found (getByIdFix ctx0
           ⟨"nid", jsTrim "T", jsTrim "D", some ("/uploads/" ++ ("fu" ++ "-" ++ "pic.png")), "ts", "ts"⟩),
         (createEndpoint ctx0 true "fu" "nid" "ts" (some "T") (some "D")
            (some ⟨"pic.png", "image/png", 4⟩) file0).file) :=
  ⟨(create_then_get ctx0 ctx0 "fu" "nid" "ts" "T" "D" "pic.png" "image/png" 4 file0
      (by decide) (by decide) rfl (by decide) (by decide)).1,
   (create_then_get ctx0 ctx0 "fu" "nid" "ts" "T" "D" "pic.png" "image/png" 4 file0
      (by decide) (by decide) rfl (by decide) (by decide)).2.2.2.1⟩

/-- Claim C10: a title that is non-empty but all whitespace passes the
falsiness validation of POST /api/content, and the stored record's title is
the empty string after trimming, so the persisted collection can hold a
record with an empty title. -/
theorem whitespace_title_stored_empty (ctx : HostCtx)
    (fileUuid newId now t d origName mt : String) (sz : Nat) (file : FileContent)
    (ht : t ≠ "") (htrim : jsTrim t = "") (hd : d ≠ "")
    (hmt : jsStartsWith mt "image/" = true) (hsz : sz ≤ FILE_SIZE_LIMIT) :
    (createOutcomeResponse (createEndpoint ctx true fileUuid newId now (some t) (some d)
        (some ⟨origName, mt, sz⟩) file).outcome).status = 200
    ∧ (createOutcomeResponse (createEndpoint ctx true fileUuid newId now (some t) (some d)
        (some ⟨origName, mt, sz⟩) file).outcome).success = true
    ∧ readContentFromFile (createEndpoint ctx true fileUuid newId now (some t) (some d)
        (some ⟨origName, mt, sz⟩) file).file
      = ⟨newId, "", jsTrim d, some ("/uploads/" ++ (fileUuid ++ "-" ++ origName)), now, now⟩
          :: readContentFromFile file := by
  have hmain := createEndpoint_valid ctx fileUuid newId now t d origName mt sz file ht hd hmt hsz
  have hfile := createEndpoint_valid_file ctx fileUuid newId now t d origName mt sz file ht hd hmt hsz
  refine ⟨by rw [hmain]; rfl, by rw [hmain]; rfl, ?_⟩
  rw [hfile, htrim]
  exact read_write_roundtrip _

/-- Witness for C10: the all-whitespace title " " is accepted and stored as
the empty string. -/
theorem whitespace_title_stored_empty_witness :
    (createOutcomeResponse (createEndpoint ctx0 true "fw" "wid" "tw" (some " ") (some "Desc")
        (some ⟨"p.png", "image/png", 4⟩) file0).outcome).status = 200
    ∧ readContentFromFile (createEndpoint ctx0 true "fw" "wid" "tw" (some " ") (some "Desc")
        (some ⟨"p.png", "image/png", 4⟩) file0).file
      = ⟨"wid", "", jsTrim "Desc", some ("/uploads/" ++ ("fw" ++ "-" ++ "p.png")), "tw", "tw"⟩
          :: readContentFromFile file0 :=
  ⟨(whitespace_title_stored_empty ctx0 "fw" "wid" "tw" " " "Desc" "p.png" "image/png" 4 file0
      (by decide) (by decide) (by decide) rfl (by decide)).1,
   (whitespace_title_stored_empty ctx0 "fw" "wid" "tw" " " "Desc" "p.png" "image/png" 4 file0
      (by decide) (by decide) (by decide) rfl (by decide)).2.2⟩

/-- The data of one Create call in a sequence: the uuid drawn for the file
name, the uuid drawn for the record id, the timestamp, the form fields and
the uploaded file. -/
structure CreateSpec where
  fileUuid : String
  itemId : String
  now : String
  title : String
  description : String
  originalname : String
  mimetype : String
  size : Nat
deriving DecidableEq

/-- The uploaded file of one Create call. -/
def specUpload (s : CreateSpec) : RawUpload :=
  ⟨s.originalname, s.mimetype, s.size⟩

/-- The record such a Create call stores. -/
def specItem (s : CreateSpec) : Item :=
  ⟨s.itemId, jsTrim s.title, jsTrim s.description,
   some ("/uploads/" ++ (s.fileUuid ++ "-" ++ s.originalname)), s.now, s.now⟩

/-- A Create call that passes validation and the upload stage. -/
def validCreateSpec (s : CreateSpec) : Prop :=
  s.title ≠ "" ∧ s.description ≠ "" ∧ jsStartsWith s.mimetype "image/" = true
    ∧ s.size ≤ FILE_SIZE_LIMIT

instance (s : CreateSpec) : Decidable (validCreateSpec s) := by
  unfold validCreateSpec
  exact inferInstance

/-- Runs a sequence of Create calls against the data file, threading the
file state through (diskOk is true: every write succeeds). -/
def createMany (ctx : HostCtx) (specs : List CreateSpec) (file : FileContent) :
    FileContent :=
  match specs with
  | [] => file
  | s :: rest =>
    createMany ctx rest
      (createEndpoint ctx true s.fileUuid s.itemId s.now (some s.title)
        (some s.description) (some (specUpload s)) file).file

theorem createMany_store (ctx : HostCtx) (specs : List CreateSpec) :
    ∀ (file : FileContent), (∀ s ∈ specs, validCreateSpec s) →
      readContentFromFile (createMany ctx specs file)
        = (specs.map specItem).reverse ++ readContentFromFile file := by
  induction specs with
  | nil =>
    intro file _
    simp [createMany]
  | cons s rest ih =>
    intro file h
    obtain ⟨ht, hd, hmt, hsz⟩ := h s (List.mem_cons_self s rest)
    have hrest : ∀ x ∈ rest, validCreateSpec x :=
      fun x hx => h x (List.mem_cons_of_mem s hx)
    have hstep := createEndpoint_valid_file ctx s.fileUuid s.itemId s.now s.title
      s.description s.originalname s.mimetype s.size file ht hd hmt hsz
    have hX : (⟨s.itemId, jsTrim s.title, jsTrim s.description,
        some ("/uploads/" ++ (s.fileUuid ++ "-" ++ s.originalname)), s.now, s.now⟩ : Item)
        = specItem s := rfl
    simp only [createMany, specUpload]
    rw [hstep, ih _ hrest, read_write_roundtrip, hX]
    simp [List.append_assoc]

/-- Claim C7: every successful Create prepends the new record, so a sequence
of N valid Create calls leaves the N created records at the head of the
stored collection in strict reverse creation order, ahead of all
pre-existing records, and List returns them in that order. -/
theorem createMany_newest_first (ctx : HostCtx) (specs : List CreateSpec)
    (file : FileContent) (h : ∀ s ∈ specs, validCreateSpec s) :
    readContentFromFile (createMany ctx specs file)
      = (specs.map specItem).reverse ++ readContentFromFile file
    ∧ (∀ ctx2 : HostCtx, getAllData ctx2 (createMany ctx specs file)
        = ((specs.map specItem).reverse ++ readContentFromFile file).map (fixItemUrl ctx2)) := by
  have h1 := createMany_store ctx specs file h
  refine ⟨h1, fun ctx2 => ?_⟩
  unfold getAllData
  rw [h1]

/-- Witness for C7: two concrete sequential creates land newest-first ahead
of the seeded record. -/
theorem createMany_newest_first_witness :
    readContentFromFile (createMany ctx0
        [⟨"u1", "a1", "t1", "First", "D1", "one.png", "image/png", 3⟩,
         ⟨"u2", "a2", "t2", "Second", "D2", "two.png", "image/png", 3⟩] file0)
      = ([⟨"u1", "a1", "t1", "First", "D1", "one.png", "image/png", 3⟩,
          ⟨"u2", "a2", "t2", "Second", "D2", "two.png", "image/png", 3⟩].map specItem).reverse
          ++ readContentFromFile file0 :=
  (createMany_newest_first ctx0
    [⟨"u1", "a1", "t1", "First", "D1", "one.png", "image/png", 3⟩,
     ⟨"u2", "a2", "t2", "Second", "D2", "two.png", "image/png", 3⟩] file0 (by decide)).1
